import Mathlib

/-!
Shallow embedding of `src/App.tsx` of the modifyImage repository.

The component `App` keeps five pieces of `useState` state (original image,
edited image, prompt text, loading flag, error string) and three handlers:
`handleImageUpload`, `handleSubmit` and `handleReset`.  The handlers are
embedded as pure state-transition functions; the outcomes of the external
effects (the selected file of the change event, the result of
`fileToBase64`, the result of `editImageWithGemini`) are passed explicitly
as arguments, and the calls `handleSubmit` makes to the remote service are
returned alongside the new state.
-/

namespace ModifyImage

/-- The `ImageState` interface of `App.tsx` (lines 6-9): the stored base64
data of the uploaded image together with its MIME type. -/
structure ImageState where
  data : String
  mimeType : String
deriving DecidableEq, Repr

/-- The five `useState` fields of the `App` component (lines 37-41). -/
structure AppState where
  originalImage : Option ImageState
  editedImage : Option String
  prompt : String
  isLoading : Bool
  error : Option String
deriving DecidableEq, Repr

/-- The initial values of the five `useState` hooks (lines 37-41). -/
def initialState : AppState :=
  { originalImage := none
    editedImage := none
    prompt := ""
    isLoading := false
    error := none }

/-- A file delivered by the upload change event; the handler inspects only
its MIME type (`file.type`, line 48). -/
structure UploadedFile where
  type : String
deriving DecidableEq, Repr

/-- JavaScript `String.prototype.startsWith`, as used on line 48: does the
character sequence of `s` begin with that of `p`?  (Defined over the
character list so that concrete instances evaluate.) -/
def jsStartsWith (s p : String) : Bool :=
  s.data.take p.data.length == p.data

/-- The successful result of `fileToBase64` (line 55): the base64 data and
the MIME type it reports. -/
structure FileB64 where
  base64Data : String
  mimeType : String
deriving DecidableEq, Repr

/-- A value thrown by `editImageWithGemini`: either a JavaScript `Error`
carrying a message, or any other thrown value (line 79 distinguishes the
two with `instanceof Error`). -/
inductive ThrownValue where
  | errorWithMessage (msg : String)
  | nonError
deriving DecidableEq, Repr

/-- The arguments of one call to `editImageWithGemini` (line 76). -/
structure ImageEditRequest where
  data : String
  mimeType : String
  prompt : String
deriving DecidableEq, Repr

/-- `handleImageUpload` (lines 45-62).  The change event's file (if any)
and the outcome of `fileToBase64` are passed explicitly.  With no file the
handler returns at once; a non-image MIME type sets the error and returns;
otherwise the error and the previous edited image are cleared, then the
read result either sets the original image or sets the read-failure
error. -/
def handleImageUpload (s : AppState) (file : Option UploadedFile)
    (read : Except Unit FileB64) : AppState :=
  match file with
  | none => s
  | some f =>
    if jsStartsWith f.type "image/" = false then
      { s with error := some "Please upload a valid image file (PNG, JPG, WEBP, etc.)." }
    else
      let s1 : AppState := { s with error := none, editedImage := none }
      match read with
      | Except.ok b => { s1 with originalImage := some ⟨b.base64Data, b.mimeType⟩ }
      | Except.error _ => { s1 with error := some "Failed to process image file." }

/-- The synchronous prefix of `handleSubmit` once the guard has passed
(lines 71-73): clear the error, raise the loading flag, clear the previous
edited image.  This is the state in force while the remote call is
pending. -/
def submitPending (s : AppState) : AppState :=
  { s with error := none, isLoading := true, editedImage := none }

/-- The error string derived from a thrown value (line 79):
`err instanceof Error ? err.message : 'An unknown error occurred.'`. -/
def thrownMessage : ThrownValue → String
  | ThrownValue.errorWithMessage m => m
  | ThrownValue.nonError => "An unknown error occurred."

/-- The continuation of `handleSubmit` applied when the remote call
settles (lines 76-82): on success the edited image is set to the data URL
of the returned base64 string, on failure the error is set; in both cases
the `finally` block lowers the loading flag. -/
def submitFinish (s : AppState) (result : Except ThrownValue String) : AppState :=
  match result with
  | Except.ok b =>
      { s with editedImage := some ("data:image/png;base64," ++ b), isLoading := false }
  | Except.error t =>
      { s with error := some (thrownMessage t), isLoading := false }

/-- `handleSubmit` (lines 64-83), with the settled outcome of the remote
call passed explicitly.  Returns the final state together with the list of
calls made to `editImageWithGemini`.  The guard `!prompt || !originalImage`
(line 66) sets the error and returns without calling the service. -/
def handleSubmit (s : AppState) (result : Except ThrownValue String) :
    AppState × List ImageEditRequest :=
  if s.prompt = "" then
    ({ s with error := some "Please provide an image and a prompt." }, [])
  else
    match s.originalImage with
    | none => ({ s with error := some "Please provide an image and a prompt." }, [])
    | some orig =>
        (submitFinish (submitPending s) result,
         [{ data := orig.data, mimeType := orig.mimeType, prompt := s.prompt }])

/-- `handleReset` (lines 85-94): every `useState` field is put back to its
initial value. -/
def handleReset (s : AppState) : AppState :=
  { s with originalImage := none
           editedImage := none
           prompt := ""
           isLoading := false
           error := none }

/-- The effect of `handleReset` on the file input ref (lines 91-93): when
the input is mounted (`fileInputRef.current` non-null) its value is set to
the empty string, otherwise nothing happens. -/
def resetFileInputValue (v : Option String) : Option String :=
  v.map (fun _ => "")

/-- The `disabled` attribute of the Generate button (line 153):
`isLoading || !prompt`. -/
def generateButtonDisabled (s : AppState) : Bool :=
  s.isLoading || s.prompt == ""

/-- The `disabled` attribute of the prompt text input (line 148). -/
def promptInputDisabled (s : AppState) : Bool :=
  s.isLoading

/-- The `disabled` attribute of the Reset button (line 162). -/
def resetButtonDisabled (s : AppState) : Bool :=
  s.isLoading

/-- The component state together with the number of outstanding remote
requests. -/
structure SysState where
  app : AppState
  inflight : Nat
deriving DecidableEq, Repr

/-- The events the rendered page can fire, with the guards the markup
imposes: the file input exists only while no original image is set (line
106); the prompt input, the Generate button and the Reset button are
disabled while `isLoading` is true (lines 148, 153, 162), and both ways of
submitting the form (the button and pressing Enter in the text input) are
therefore unavailable while a request is pending.  A submit whose guard
fails (line 66) changes no request count; a submit whose guard passes
starts one request; a started request later resolves, running the
continuation of `handleSubmit`. -/
inductive Step : SysState → SysState → Prop where
  | upload (a : AppState) (n : Nat) (file : Option UploadedFile)
      (read : Except Unit FileB64) (hmounted : a.originalImage = none) :
      Step ⟨a, n⟩ ⟨handleImageUpload a file read, n⟩
  | editPrompt (a : AppState) (n : Nat) (p : String)
      (henabled : a.isLoading = false) :
      Step ⟨a, n⟩ ⟨{ a with prompt := p }, n⟩
  | submitNoop (a : AppState) (n : Nat) (henabled : a.isLoading = false)
      (hguard : a.prompt = "" ∨ a.originalImage = none) :
      Step ⟨a, n⟩ ⟨{ a with error := some "Please provide an image and a prompt." }, n⟩
  | submitStart (a : AppState) (n : Nat) (orig : ImageState)
      (henabled : a.isLoading = false) (hp : a.prompt ≠ "")
      (ho : a.originalImage = some orig) :
      Step ⟨a, n⟩ ⟨submitPending a, n + 1⟩
  | submitResolve (a : AppState) (n : Nat) (result : Except ThrownValue String) :
      Step ⟨a, n + 1⟩ ⟨submitFinish a result, n⟩
  | reset (a : AppState) (n : Nat) (henabled : a.isLoading = false) :
      Step ⟨a, n⟩ ⟨handleReset a, n⟩

/-- The states the page can reach from its initial render (no request in
flight) by firing events. -/
inductive Reachable : SysState → Prop where
  | init : Reachable ⟨initialState, 0⟩
  | step {s t : SysState} : Reachable s → Step s t → Reachable t

end ModifyImage

namespace ModifyImage

/-- Claim C1: with an empty prompt or no original image, `handleSubmit`
sets the error to the guard message, makes no call to the remote service,
and leaves the original image, edited image, prompt and loading flag
unchanged. -/
theorem handleSubmit_guard_noop (s : AppState) (r : Except ThrownValue String)
    (h : s.prompt = "" ∨ s.originalImage = none) :
    handleSubmit s r =
      ({ s with error := some "Please provide an image and a prompt." }, []) := by
  rcases h with h | h
  · simp [handleSubmit, h]
  · unfold handleSubmit
    rw [h]
    by_cases hp : s.prompt = "" <;> simp [hp]

/-- Witness for C1 at a concrete state with an empty prompt. -/
theorem handleSubmit_guard_noop_witness :
    handleSubmit ⟨some ⟨"abc", "image/png"⟩, none, "", false, none⟩ (Except.ok "zzz") =
      (⟨some ⟨"abc", "image/png"⟩, none, "", false,
        some "Please provide an image and a prompt."⟩, []) :=
  handleSubmit_guard_noop ⟨some ⟨"abc", "image/png"⟩, none, "", false, none⟩
    (Except.ok "zzz") (Or.inl rfl)

/-- Claim C2: uploading a file whose MIME type does not start with
`image/` sets the error to the invalid-file message and leaves every other
field (original image, edited image, prompt, loading flag) unchanged. -/
theorem handleImageUpload_invalid_type (s : AppState) (f : UploadedFile)
    (read : Except Unit FileB64) (h : jsStartsWith f.type "image/" = false) :
    handleImageUpload s (some f) read =
      { s with error := some "Please upload a valid image file (PNG, JPG, WEBP, etc.)." } := by
  simp [handleImageUpload, h]

/-- Witness for C2 at a concrete state and a PDF file. -/
theorem handleImageUpload_invalid_type_witness :
    handleImageUpload ⟨none, some "old", "p", false, none⟩ (some ⟨"application/pdf"⟩)
        (Except.ok ⟨"abc", "image/png"⟩) =
      ⟨none, some "old", "p", false,
        some "Please upload a valid image file (PNG, JPG, WEBP, etc.)."⟩ :=
  handleImageUpload_invalid_type ⟨none, some "old", "p", false, none⟩
    ⟨"application/pdf"⟩ (Except.ok ⟨"abc", "image/png"⟩) (by decide)

/-- Claim C10: an upload change event carrying no file leaves the whole
state unchanged. -/
theorem handleImageUpload_no_file (s : AppState) (read : Except Unit FileB64) :
    handleImageUpload s none read = s := by
  rfl

/-- Claim C8: a successful upload of a valid image file clears the error
and the previous edited image and sets the original image to the read
result's base64 data and MIME type; the prompt and loading flag are
unchanged. -/
theorem handleImageUpload_valid_success (s : AppState) (f : UploadedFile)
    (bd mt : String) (h : jsStartsWith f.type "image/" = true) :
    handleImageUpload s (some f) (Except.ok ⟨bd, mt⟩) =
      { s with error := none, editedImage := none, originalImage := some ⟨bd, mt⟩ } := by
  simp [handleImageUpload, h]

/-- Witness for C8 at a concrete state and a PNG file. -/
theorem handleImageUpload_valid_success_witness :
    handleImageUpload ⟨none, some "old", "p", false, some "e"⟩ (some ⟨"image/png"⟩)
        (Except.ok ⟨"abc", "image/png"⟩) =
      ⟨some ⟨"abc", "image/png"⟩, none, "p", false, none⟩ :=
  handleImageUpload_valid_success ⟨none, some "old", "p", false, some "e"⟩
    ⟨"image/png"⟩ "abc" "image/png" (by decide)

/-- Claim C4: every failure is surfaced as a user-visible error string: a
failed file read sets the read-failure message, a remote call that throws
an `Error` sets that error's message, and any other thrown value sets the
unknown-error message; each handler returns a state (nothing is fatal). -/
theorem failures_surfaced_as_errors (s t : AppState) (f : UploadedFile) (m : String)
    (hf : jsStartsWith f.type "image/" = true)
    (ho : s.originalImage ≠ none) (hp : s.prompt ≠ "") :
    (handleImageUpload t (some f) (Except.error ())).error =
        some "Failed to process image file." ∧
    ((handleSubmit s (Except.error (ThrownValue.errorWithMessage m))).1).error = some m ∧
    ((handleSubmit s (Except.error ThrownValue.nonError)).1).error =
        some "An unknown error occurred." := by
  refine ⟨?_, ?_, ?_⟩
  · simp [handleImageUpload, hf]
  · cases hor : s.originalImage with
    | none => exact absurd hor ho
    | some orig =>
        simp [handleSubmit, hp, hor, submitFinish, submitPending, thrownMessage]
  · cases hor : s.originalImage with
    | none => exact absurd hor ho
    | some orig =>
        simp [handleSubmit, hp, hor, submitFinish, submitPending, thrownMessage]

/-- Witness for C4 at concrete states (the read failure at the initial
state, i.e. on a first upload), a concrete file and a concrete error
message. -/
theorem failures_surfaced_as_errors_witness :
    ((handleImageUpload initialState
        (some ⟨"image/jpeg"⟩) (Except.error ())).error =
      some "Failed to process image file.") ∧
    ((handleSubmit ⟨some ⟨"a", "image/png"⟩, none, "p", false, none⟩
        (Except.error (ThrownValue.errorWithMessage "boom"))).1.error = some "boom") ∧
    ((handleSubmit ⟨some ⟨"a", "image/png"⟩, none, "p", false, none⟩
        (Except.error ThrownValue.nonError)).1.error =
      some "An unknown error occurred.") :=
  failures_surfaced_as_errors ⟨some ⟨"a", "image/png"⟩, none, "p", false, none⟩
    initialState ⟨"image/jpeg"⟩ "boom" (by decide) (by simp) (by simp)

/-- Claim C5: when the guard passes (non-empty prompt and an original
image present), one invocation of `handleSubmit` calls the remote service
exactly once, whatever the call's outcome. -/
theorem handleSubmit_calls_once (s : AppState) (orig : ImageState)
    (r : Except ThrownValue String)
    (ho : s.originalImage = some orig) (hp : s.prompt ≠ "") :
    (handleSubmit s r).2.length = 1 := by
  simp [handleSubmit, hp, ho]

/-- Witness for C5 at a concrete state, for a failing call. -/
theorem handleSubmit_calls_once_witness :
    (handleSubmit ⟨some ⟨"a", "image/png"⟩, none, "p", false, none⟩
        (Except.error ThrownValue.nonError)).2.length = 1 :=
  handleSubmit_calls_once ⟨some ⟨"a", "image/png"⟩, none, "p", false, none⟩
    ⟨"a", "image/png"⟩ (Except.error ThrownValue.nonError) rfl (by simp)

/-- Claim C6: a successful submit sets the edited image to the data URL
prefix concatenated with the returned base64 string, ends with the error
`null` and the loading flag `false`. -/
theorem handleSubmit_success (s : AppState) (orig : ImageState) (b : String)
    (ho : s.originalImage = some orig) (hp : s.prompt ≠ "") :
    ((handleSubmit s (Except.ok b)).1).editedImage =
        some ("data:image/png;base64," ++ b) ∧
    ((handleSubmit s (Except.ok b)).1).error = none ∧
    ((handleSubmit s (Except.ok b)).1).isLoading = false := by
  refine ⟨?_, ?_, ?_⟩ <;> simp [handleSubmit, hp, ho, submitFinish, submitPending]

/-- Witness for C6 at a concrete state and returned base64 string. -/
theorem handleSubmit_success_witness :
    ((handleSubmit ⟨some ⟨"a", "image/png"⟩, none, "p", false, none⟩
        (Except.ok "QUJD")).1).editedImage = some ("data:image/png;base64," ++ "QUJD") ∧
    ((handleSubmit ⟨some ⟨"a", "image/png"⟩, none, "p", false, none⟩
        (Except.ok "QUJD")).1).error = none ∧
    ((handleSubmit ⟨some ⟨"a", "image/png"⟩, none, "p", false, none⟩
        (Except.ok "QUJD")).1).isLoading = false :=
  handleSubmit_success ⟨some ⟨"a", "image/png"⟩, none, "p", false, none⟩
    ⟨"a", "image/png"⟩ "QUJD" rfl (by simp)

/-- Claim C7: the single request `handleSubmit` sends consists of exactly
the stored original image's base64 data, its MIME type and the current
prompt, forwarded unmodified. -/
theorem handleSubmit_request_fields (s : AppState) (orig : ImageState)
    (r : Except ThrownValue String)
    (ho : s.originalImage = some orig) (hp : s.prompt ≠ "") :
    (handleSubmit s r).2 = [⟨orig.data, orig.mimeType, s.prompt⟩] := by
  simp [handleSubmit, hp, ho]

/-- Witness for C7 at a concrete state. -/
theorem handleSubmit_request_fields_witness :
    (handleSubmit ⟨some ⟨"a", "image/png"⟩, none, "p", false, none⟩
        (Except.ok "zzz")).2 = [⟨"a", "image/png", "p"⟩] :=
  handleSubmit_request_fields ⟨some ⟨"a", "image/png"⟩, none, "p", false, none⟩
    ⟨"a", "image/png"⟩ (Except.ok "zzz") rfl (by simp)

/-- Claim C9: from any state, `handleReset` yields the initial state (so
it is idempotent and independent of its argument), and on the file input
ref it sets the value to the empty string when the input is mounted. -/
theorem handleReset_yields_initial :
    (∀ s : AppState, handleReset s = initialState) ∧
    (∀ s : AppState, handleReset (handleReset s) = handleReset s) ∧
    (∀ v : String, resetFileInputValue (some v) = some "") ∧
    resetFileInputValue none = none :=
  ⟨fun _ => rfl, fun _ => rfl, fun _ => rfl, rfl⟩

lemma handleImageUpload_isLoading (s : AppState) (file : Option UploadedFile)
    (read : Except Unit FileB64) :
    (handleImageUpload s file read).isLoading = s.isLoading := by
  cases file with
  | none => rfl
  | some f =>
      by_cases h : jsStartsWith f.type "image/" = false
      · simp [handleImageUpload, h]
      · cases read <;> simp [handleImageUpload, h]

lemma submitFinish_isLoading (s : AppState) (r : Except ThrownValue String) :
    (submitFinish s r).isLoading = false := by
  cases r <;> rfl

lemma reachable_inflight_eq (sys : SysState) (h : Reachable sys) :
    sys.inflight = (if sys.app.isLoading then 1 else 0) := by
  induction h with
  | init => rfl
  | step hr hstep ih =>
      cases hstep with
      | upload a n file read hmounted =>
          simpa [handleImageUpload_isLoading] using ih
      | editPrompt a n p henabled =>
          simpa using ih
      | submitNoop a n henabled hguard =>
          simpa using ih
      | submitStart a n orig henabled hp ho =>
          simp only [henabled, if_neg Bool.false_ne_true] at ih
          simp [submitPending, ih]
      | submitResolve a n result =>
          show n = if (submitFinish a result).isLoading then 1 else 0
          rw [submitFinish_isLoading]
          have h1 : n + 1 = (if a.isLoading then 1 else 0) := ih
          cases hl : a.isLoading
          · rw [hl] at h1
            simp at h1
          · rw [hl] at h1
            simp at h1 ⊢
            omega
      | reset a n henabled =>
          simp only [handleReset]
          simpa [henabled] using ih

/-- Claim C3: at most one remote request is in flight at any time.  The
synchronous prefix of `handleSubmit` raises the loading flag before the
call, the continuation lowers it whatever the outcome, a raised loading
flag disables the Generate button and the prompt input, and consequently
no reachable system state has more than one outstanding request. -/
theorem single_request_in_flight :
    (∀ s : AppState, (submitPending s).isLoading = true) ∧
    (∀ (s : AppState) (r : Except ThrownValue String),
        (submitFinish s r).isLoading = false) ∧
    (∀ s : AppState, s.isLoading = true →
        generateButtonDisabled s = true ∧ promptInputDisabled s = true) ∧
    (∀ sys : SysState, Reachable sys → sys.inflight ≤ 1) := by
  refine ⟨fun s => rfl, submitFinish_isLoading, fun s h => ?_, fun sys h => ?_⟩
  · exact ⟨by simp [generateButtonDisabled, h], h⟩
  · rw [reachable_inflight_eq sys h]
    split <;> omega

/-- Witness for C3: the loading flag is raised at the start of a concrete
submit, and the initial system state has at most one request in flight. -/
theorem single_request_in_flight_witness :
    (submitPending initialState).isLoading = true ∧
    (SysState.mk initialState 0).inflight ≤ 1 :=
  ⟨single_request_in_flight.1 initialState,
   single_request_in_flight.2.2.2 (SysState.mk initialState 0) Reachable.init⟩

end ModifyImage
